import Mathlib

/-!
Verification development for the Food-System-payment repository
(`src/unnamed/part_000`, an Express server handling PayHere payment
notifications for one-time cart orders and recurring food subscriptions).

The embedding is shallow:
* JS strings are Lean `String`s; JS `undefined`/missing fields are `Option`;
  JS string falsiness (`!x` true for `undefined`/`null`/`""`) is `jsFalsyStr`.
* Monetary amounts are modelled fixed-point as a `Nat` number of cents;
  `toFixed2` embeds `parseFloat(x).toFixed(2)` on such amounts.
* JS `Date` values are modelled by calendar triples `JsDate` (year,
  0-based month as in JS `getMonth`, 1-based day).  `addOneMonth` embeds
  `d.setMonth(d.getMonth() + 1)` including JS day-overflow normalisation;
  date comparison is lexicographic, which agrees with the timestamp order
  JS uses on normalised dates.
* The MD5 digest used by both the `crypto` and `crypto-js` libraries is a
  parameter `md5 : String → String` returning the lowercase hex digest;
  all hash functions are stated uniformly in this parameter.
* MongoDB documents are Lean structures; a collection is a `List`;
  `findOne` with a sort by `createdAt: -1` is modelled by `findLatestCreated`.
-/

namespace FoodPayment

/-- JS `String.prototype.toUpperCase` (character-wise, as both hash
libraries produce ASCII hex). -/
def jsToUpper (s : String) : String := ⟨s.data.map Char.toUpper⟩

/-- JS `String.prototype.toLowerCase` (character-wise). -/
def jsToLower (s : String) : String := ⟨s.data.map Char.toLower⟩

/-- JS `String.prototype.trim`: strip whitespace from both ends. -/
def jsTrim (s : String) : String :=
  ⟨(((s.data.dropWhile Char.isWhitespace).reverse).dropWhile Char.isWhitespace).reverse⟩

/-- JS `String.prototype.startsWith`. -/
def jsStartsWith (s pat : String) : Bool := pat.data.isPrefixOf s.data

/-- JS truthiness of an optional string: `undefined`, `null` and `""` are falsy. -/
def jsTruthy : Option String → Bool
  | none => false
  | some s => !s.data.isEmpty

/-- JS falsiness of an optional string (`!x` in the source). -/
def jsFalsyStr (o : Option String) : Bool := !(jsTruthy o)

/-- Fixed-point embedding of `parseFloat(amount).toFixed(2)`: the amount is a
number of cents, printed with exactly two decimal places. -/
def toFixed2 (cents : Nat) : String :=
  let units := cents / 100
  let frac := cents % 100
  toString units ++ "." ++ (if frac < 10 then "0" ++ toString frac else toString frac)

/-- Calendar date modelling a (normalised) JS `Date`: `month` is 0-based as in
`Date.prototype.getMonth`, `day` is 1-based. -/
structure JsDate where
  year : Nat
  month : Nat
  day : Nat
deriving DecidableEq, Repr

def isLeapYear (y : Nat) : Bool :=
  y % 4 == 0 && (y % 100 != 0 || y % 400 == 0)

def daysInMonth (y m : Nat) : Nat :=
  if m == 1 then (if isLeapYear y then 29 else 28)
  else if m == 3 || m == 5 || m == 8 || m == 10 then 30
  else 31

/-- Embedding of `d.setMonth(d.getMonth() + 1)`: increment the month (rolling
the year), and let a day-of-month beyond the target month's length overflow
into the following month exactly as JS `Date` normalisation does. -/
def addOneMonth (d : JsDate) : JsDate :=
  let y := if d.month == 11 then d.year + 1 else d.year
  let m := if d.month == 11 then 0 else d.month + 1
  if d.day ≤ daysInMonth y m then ⟨y, m, d.day⟩
  else if m == 11 then ⟨y + 1, 0, d.day - daysInMonth y m⟩
  else ⟨y, m + 1, d.day - daysInMonth y m⟩

def addOneDay (d : JsDate) : JsDate :=
  if d.day < daysInMonth d.year d.month then ⟨d.year, d.month, d.day + 1⟩
  else if d.month == 11 then ⟨d.year + 1, 0, 1⟩
  else ⟨d.year, d.month + 1, 1⟩

/-- Adding `n` days, modelling `new Date(t + n*24*60*60*1000)`. -/
def addDays : Nat → JsDate → JsDate
  | 0, d => d
  | n + 1, d => addDays n (addOneDay d)

/-- Strict order on dates (JS `<` on timestamps of normalised dates). -/
def jsDateLt (a b : JsDate) : Bool :=
  a.year < b.year ||
    (a.year == b.year && (a.month < b.month ||
      (a.month == b.month && a.day < b.day)))

/-- Non-strict order on dates (JS `<=` on timestamps of normalised dates). -/
def jsDateLe (a b : JsDate) : Bool :=
  jsDateLt a b || a == b

theorem jsDateLe_of_lt {a b : JsDate} (h : jsDateLt a b = true) :
    jsDateLe a b = true := by
  simp [jsDateLe, h]

/-! ## Hash authenticator (`src/unnamed/part_000`, lines 277-321)

All three functions are parametrised by `md5 : String → String`, the
lowercase hex MD5 digest shared (as a mathematical function) by the
`crypto` and `crypto-js` libraries. -/

/-- `generatePayHereHash` (lines 277-282): used for one-time payments.
`hashedSecret` is the uppercase MD5 of the merchant secret; the final digest
is the uppercase MD5 of `merchantId ++ orderId ++ amount_2dp ++ currency ++
hashedSecret`. -/
def generatePayHereHash (md5 : String → String) (merchantId orderId : String)
    (amountCents : Nat) (currency merchantSecret : String) : String :=
  let hashedSecret := jsToUpper (md5 merchantSecret)
  let amountFormatted := toFixed2 amountCents
  jsToUpper (md5 (merchantId ++ orderId ++ amountFormatted ++ currency ++ hashedSecret))

/-- `generateRecurringPayHereHash` (lines 285-302): used for recurring
payments, built with `crypto-js`.  Each input is cleaned (`toString`,
`trim`; the currency also uppercased) before the same concatenation. -/
def generateRecurringPayHereHash (md5 : String → String) (merchantId orderId : String)
    (amountCents : Nat) (currency merchantSecret : String) : String :=
  let cleanMerchantId := jsTrim merchantId
  let cleanOrderId := jsTrim orderId
  let cleanAmount := toFixed2 amountCents
  let cleanCurrency := jsTrim (jsToUpper currency)
  let cleanSecret := jsTrim merchantSecret
  let secretHash := jsToUpper (md5 cleanSecret)
  jsToUpper (md5 (cleanMerchantId ++ cleanOrderId ++ cleanAmount ++ cleanCurrency ++ secretHash))

/-- The local digest computed by `verifyPayHereHash` (lines 305-321):
uppercase MD5 of `merchant_id ++ order_id ++ amount_2dp ++ payhere_currency ++
status_code ++ hashedSecret`. -/
def verifyPayHereLocalHash (md5 : String → String) (merchant_id order_id : String)
    (amountCents : Nat) (payhere_currency status_code merchantSecret : String) : String :=
  let hashedSecret := jsToUpper (md5 merchantSecret)
  let amountFormatted := toFixed2 amountCents
  jsToUpper (md5 (merchant_id ++ order_id ++ amountFormatted ++ payhere_currency ++
    status_code ++ hashedSecret))

/-- `verifyPayHereHash` (lines 305-321): recompute the digest locally and
compare with `md5sig.toUpperCase()`. -/
def verifyPayHereHash (md5 : String → String) (merchant_id order_id : String)
    (amountCents : Nat) (payhere_currency status_code md5sig merchantSecret : String) : Bool :=
  verifyPayHereLocalHash md5 merchant_id order_id amountCents payhere_currency
    status_code merchantSecret == jsToUpper md5sig

/-- The signing digest as claimed by the spec sentence: the hashed secret is
the FIRST component of the concatenation (`hash( hash(secret) || merchantId ||
orderId || amount_2dp || currency )`).  Written from the spec's words, for
comparison with `generatePayHereHash`. -/
def claimedSigningDigest (md5 : String → String) (merchantId orderId : String)
    (amountCents : Nat) (currency merchantSecret : String) : String :=
  let hashedSecret := jsToUpper (md5 merchantSecret)
  let amountFormatted := toFixed2 amountCents
  jsToUpper (md5 (hashedSecret ++ merchantId ++ orderId ++ amountFormatted ++ currency))

/-- The signing digest with the hashed secret as the LAST component, written
from the amended spec wording, for comparison with `generatePayHereHash`. -/
def amendedSigningDigest (md5 : String → String) (merchantId orderId : String)
    (amountCents : Nat) (currency merchantSecret : String) : String :=
  jsToUpper (md5 (merchantId ++ orderId ++ toFixed2 amountCents ++ currency ++
    jsToUpper (md5 merchantSecret)))

/-- The verification digest with the status code inserted before the trailing
hashed secret, written from the amended spec wording. -/
def amendedVerifyDigest (md5 : String → String) (merchantId orderId : String)
    (amountCents : Nat) (currency statusCode merchantSecret : String) : String :=
  jsToUpper (md5 (merchantId ++ orderId ++ toFixed2 amountCents ++ currency ++ statusCode ++
    jsToUpper (md5 merchantSecret)))

/-- Identity digest function, used to instantiate the `md5` parameter at
concrete inputs. -/
def idDigest (s : String) : String := s

/-! ## Data model (`src/unnamed/part_000`, lines 110-272) -/

/-- Subscription lifecycle status (`foodSubscriptionSchema.status` enum). -/
inductive SubStatus where
  | active | inactive | cancelled | expired | pending_renewal | payment_failed
deriving DecidableEq, Repr

/-- Renewal-history entry outcome (`renewalHistory.status` enum). -/
inductive HistStatus where
  | success | failed | cancelled
deriving DecidableEq, Repr

/-- Cart-order payment status (`cartOrderSchema.paymentStatus` enum). -/
inductive PayStatus where
  | pending | completed | failed | cancelled
deriving DecidableEq, Repr

/-- Cart-order fulfillment status (`cartOrderSchema.orderStatus` enum). -/
inductive OrderStatus where
  | pending | confirmed | processing | shipped | delivered | cancelled
deriving DecidableEq, Repr

/-- Audit-log action (`foodSubscriptionLogSchema.action` enum). -/
inductive LogAction where
  | created | renewed | cancelled | failed | auto_renewal_cancelled | reactivated
deriving DecidableEq, Repr

/-- One entry of `renewalHistory` (schema lines 218-226).  Amounts are cents. -/
structure RenewalHistoryEntry where
  renewalDate : JsDate
  amount : Nat
  status : HistStatus
  paymentId : Option String
  failureReason : Option String
  attempt : Nat
  payhereToken : Option String
deriving DecidableEq, Repr

/-- A `FoodSubscription` document (schema lines 167-246).  `id` models the
Mongo `_id`; `createdAt` is used by the `sort({ createdAt: -1 })` lookups. -/
structure FoodSubscription where
  id : Nat
  userEmail : String
  status : SubStatus
  amount : Nat
  payhereOrderId : String
  payherePaymentId : Option String
  payhereRecurringToken : Option String
  autoRenew : Bool
  renewalAttempts : Nat
  maxRenewalAttempts : Nat
  paymentFailure : Bool
  lastPaymentFailureDate : Option JsDate
  autoRenewalCancelledDate : Option JsDate
  autoRenewalCancelledReason : Option String
  startDate : JsDate
  endDate : Option JsDate
  nextBillingDate : Option JsDate
  renewalHistory : List RenewalHistoryEntry
  createdAt : JsDate
  updatedAt : JsDate
deriving DecidableEq, Repr

/-- A `CartOrder` document (schema lines 113-164), restricted to the fields
the notification handler reads or writes. -/
structure CartOrder where
  id : Nat
  orderId : String
  payhereOrderId : String
  paymentStatus : PayStatus
  orderStatus : OrderStatus
  payherePaymentId : Option String
  updatedAt : JsDate
deriving DecidableEq, Repr

/-- A `FoodSubscriptionLog` document (schema lines 249-272), restricted to
the identifying fields. -/
structure SubscriptionLogEntry where
  subscriptionId : Nat
  action : LogAction
deriving DecidableEq, Repr

/-- An inbound PayHere notification (`req.body` of `/api/payhere-notify`,
lines 1049-1065).  Every field may be absent; `payhere_amount` is modelled
as cents (the gateway sends a decimal string; presence is `isSome`). -/
structure Notification where
  merchant_id : Option String
  order_id : Option String
  payment_id : Option String
  payhere_amount : Option Nat
  payhere_currency : Option String
  status_code : Option String
  md5sig : Option String
  status_message : Option String
  custom_1 : Option String
  custom_2 : Option String
  email : Option String
  recurring_token : Option String
  subscription_id : Option String
  event_type : Option String
  next_occurrence_date : Option JsDate
deriving DecidableEq, Repr

/-- The persisted state the notification pipeline reads and writes. -/
structure Store where
  orders : List CartOrder
  subs : List FoodSubscription
  logs : List SubscriptionLogEntry
deriving DecidableEq, Repr

/-- `payhereConfig` (lines 75-88), restricted to the fields the notification
endpoint uses, plus the digest function. -/
structure PayHereConfig where
  md5 : String → String
  merchantId : String
  merchantSecret : String

/-! ## Renewal state machine transitions -/

/-- Success branch of `handleRecurringFoodPayment` (lines 907-949): advance
`endDate` by one month from the current `endDate`, set `nextBillingDate` to
the provided occurrence date or the new end date, reset the attempt counter,
clear the failure flag, set status `active`, and append a `success` history
entry (whose `attempt` is `renewalAttempts + 1` evaluated after the reset,
hence 1).  A missing `endDate` (never produced by the schema, whose pre-save
hook always sets it) is propagated as `none`, standing for the invalid date
JS would compute. -/
def recurringSuccessTransition (now : JsDate) (payhereAmount : Nat)
    (paymentId : Option String) (nextOccurrenceDate : Option JsDate)
    (sub : FoodSubscription) : FoodSubscription :=
  let newEndDate := sub.endDate.map addOneMonth
  { sub with
    status := .active
    endDate := newEndDate
    nextBillingDate := match nextOccurrenceDate with
      | some d => some d
      | none => newEndDate
    renewalAttempts := 0
    paymentFailure := false
    updatedAt := now
    renewalHistory := sub.renewalHistory ++ [{
      renewalDate := now
      amount := payhereAmount
      status := .success
      paymentId := paymentId
      failureReason := none
      attempt := 1
      payhereToken := sub.payhereRecurringToken }] }

/-- Failure branch of `handleRecurringFoodPayment` (lines 951-987): increment
`renewalAttempts`; status becomes `cancelled` when the incremented count
reaches `maxRenewalAttempts` (in which case `autoRenew` is also cleared) and
`pending_renewal` otherwise; mark the failure flag and date; append a
`failed` history entry.  `updatedAt` is set by the schema's pre-save hook. -/
def recurringFailureTransition (now : JsDate) (payhereAmount : Nat)
    (statusCode : String) (sub : FoodSubscription) : FoodSubscription :=
  let attempts := sub.renewalAttempts + 1
  { sub with
    renewalAttempts := attempts
    paymentFailure := true
    lastPaymentFailureDate := some now
    status := if attempts ≥ sub.maxRenewalAttempts then .cancelled else .pending_renewal
    autoRenew := if attempts ≥ sub.maxRenewalAttempts then false else sub.autoRenew
    updatedAt := now
    renewalHistory := sub.renewalHistory ++ [{
      renewalDate := now
      amount := payhereAmount
      status := .failed
      paymentId := none
      failureReason := some ("Payment failed with status code: " ++ statusCode)
      attempt := attempts
      payhereToken := sub.payhereRecurringToken }] }

/-- Body of `handleFailedFoodPayment` once the subscription is found
(lines 1003-1022): increment `renewalAttempts`, set status `payment_failed`,
mark the failure flag and date, append a `failed` history entry; if the
count reaches `maxRenewalAttempts`, force status `cancelled` and clear
`autoRenew`. -/
def failedPaymentTransition (now : JsDate) (statusCode statusMessage : String)
    (sub : FoodSubscription) : FoodSubscription :=
  let attempts := sub.renewalAttempts + 1
  { sub with
    renewalAttempts := attempts
    paymentFailure := true
    lastPaymentFailureDate := some now
    status := if attempts ≥ sub.maxRenewalAttempts then .cancelled else .payment_failed
    autoRenew := if attempts ≥ sub.maxRenewalAttempts then false else sub.autoRenew
    updatedAt := now
    renewalHistory := sub.renewalHistory ++ [{
      renewalDate := now
      amount := sub.amount
      status := .failed
      paymentId := none
      failureReason := some (statusCode ++ " - " ++ statusMessage)
      attempt := attempts
      payhereToken := none }] }

/-- Update branch of `handleInitialFoodPaymentWithRecurring` for an existing
subscription when the notification is recurring and carries a token
(lines 794-811): attach the token and payment id, enable auto-renew, set
status `active`, and set `nextBillingDate` to the provided occurrence date or
now + 30 days.  `renewalAttempts` is NOT reset. -/
def initialUpdateTransition (now : JsDate) (paymentId : Option String)
    (recurringToken : String) (nextOccurrenceDate : Option JsDate)
    (sub : FoodSubscription) : FoodSubscription :=
  { sub with
    payhereRecurringToken := some recurringToken
    payherePaymentId := paymentId
    autoRenew := true
    status := .active
    nextBillingDate := some (nextOccurrenceDate.getD (addDays 30 now))
    updatedAt := now }

/-- Creation branch of `handleInitialFoodPaymentWithRecurring`
(lines 813-852): a fresh subscription with status `active`,
`endDate = startDate + 1 month`, `nextBillingDate` set only when the
notification is recurring and carries a token, counters at their defaults
(`renewalAttempts = 0`, `maxRenewalAttempts = 3`), and one `success` history
entry with attempt 1. -/
def initialCreateSubscription (now : JsDate) (newId : Nat) (orderId : String)
    (paymentId : Option String) (amountCents : Nat) (email custom2 : Option String)
    (recurringToken : Option String) (nextOccurrenceDate : Option JsDate) :
    FoodSubscription :=
  let isRecurring := custom2 == some "food_monthly_recurring"
  let endDate := addOneMonth now
  let nextBillingDate :=
    if isRecurring && jsTruthy recurringToken then
      some (nextOccurrenceDate.getD endDate)
    else none
  { id := newId
    userEmail := (email.getD "customer@example.com")
    status := .active
    amount := amountCents
    payhereOrderId := orderId
    payherePaymentId := paymentId
    payhereRecurringToken := recurringToken
    autoRenew := isRecurring && jsTruthy recurringToken
    renewalAttempts := 0
    maxRenewalAttempts := 3
    paymentFailure := false
    lastPaymentFailureDate := none
    autoRenewalCancelledDate := none
    autoRenewalCancelledReason := none
    startDate := now
    endDate := some endDate
    nextBillingDate := nextBillingDate
    renewalHistory := [{
      renewalDate := now
      amount := amountCents
      status := .success
      paymentId := paymentId
      failureReason := none
      attempt := 1
      payhereToken := recurringToken }]
    createdAt := now
    updatedAt := now }

/-- Subscription created by `/api/create-food-subscription-record`
(lines 588-698): status `active`, schema-default counters
(`renewalAttempts = 0`, `maxRenewalAttempts = 3`), `endDate = now + 1 month`,
`nextBillingDate` set only when auto-renew is enabled, and one `success`
history entry with attempt 1. -/
def createSubscriptionRecord (now : JsDate) (newId : Nat) (userEmail : String)
    (amountCents : Nat) (payhereOrderId : String) (recurringToken : Option String)
    (enableAutoRenew : Bool) : FoodSubscription :=
  let endDate := addOneMonth now
  { id := newId
    userEmail := jsTrim (jsToLower userEmail)
    status := .active
    amount := amountCents
    payhereOrderId := payhereOrderId
    payherePaymentId := none
    payhereRecurringToken := recurringToken
    autoRenew := enableAutoRenew
    renewalAttempts := 0
    maxRenewalAttempts := 3
    paymentFailure := false
    lastPaymentFailureDate := none
    autoRenewalCancelledDate := none
    autoRenewalCancelledReason := none
    startDate := now
    endDate := some endDate
    nextBillingDate := if enableAutoRenew then some endDate else none
    renewalHistory := [{
      renewalDate := now
      amount := amountCents
      status := .success
      paymentId := some payhereOrderId
      failureReason := none
      attempt := 1
      payhereToken := recurringToken }]
    createdAt := now
    updatedAt := now }

/-! ## Auto-renewal toggle -/

/-- Outcome of `/api/cancel-food-subscription-renewal`. -/
inductive CancelResult where
  /-- `"No active food subscription with auto-renewal found"` (success false). -/
  | notFound
  /-- `"Auto-renewal is already disabled"` (success true). -/
  | alreadyDisabled
  /-- `"Auto-renewal cancelled successfully..."` (success true). -/
  | cancelled
  /-- `"Failed to cancel auto-renewal..."` (zero documents modified). -/
  | updateFailed
deriving DecidableEq, Repr

/-- `/api/cancel-food-subscription-renewal` (lines 1365-1489) applied to the
subscription the identifier designates.  The `findOne` filter requires status
`active` AND `autoRenew: true`; a subscription failing the filter yields the
non-mutating `notFound` result.  The subsequent `!subscription.autoRenew`
check (lines 1399-1407, the `alreadyDisabled` result) is therefore
unreachable.  The update clears `autoRenew`, stamps the cancellation date and
reason, and unsets the recurring token when one was stored (the PayHere-side
cancellation is stubbed as always successful); since the filter guaranteed
`autoRenew = true`, the update always modifies the document, so the
transaction commits and one `auto_renewal_cancelled` log entry is written. -/
def cancelAutoRenew (now : JsDate) (reason : Option String)
    (sub : FoodSubscription) : CancelResult × FoodSubscription × List LogAction :=
  if sub.status == .active && sub.autoRenew then
    if !sub.autoRenew then (.alreadyDisabled, sub, [])
    else
      let sub' := { sub with
        autoRenew := false
        updatedAt := now
        autoRenewalCancelledDate := some now
        autoRenewalCancelledReason := some (reason.getD "User requested cancellation")
        payhereRecurringToken :=
          if sub.payhereRecurringToken.isSome then none else sub.payhereRecurringToken }
      (.cancelled, sub', [.auto_renewal_cancelled])
  else (.notFound, sub, [])

/-- Outcome of `/api/reactivate-food-subscription-renewal`. -/
inductive ReactivateResult where
  /-- `"No eligible subscription found for reactivation"` (success false). -/
  | notFound
  /-- `"Subscription has expired..."` (success false). -/
  | expired
  /-- `"Auto-renewal reactivated successfully..."` (success true). -/
  | reactivated
deriving DecidableEq, Repr

/-- `/api/reactivate-food-subscription-renewal` (lines 1492-1571) applied to
the subscription the identifier designates.  The `findOne` filter requires
status in `{active, pending_renewal}` and `autoRenew: false`; then a
subscription whose `endDate` is `<=` now is rejected as expired without
mutation.  Otherwise auto-renew is re-enabled, status set `active`, the
attempt counter and failure flag reset, `nextBillingDate` backfilled from
`endDate` when absent, and one `reactivated` log entry written. -/
def reactivateAutoRenew (now : JsDate) (sub : FoodSubscription) :
    ReactivateResult × FoodSubscription × List LogAction :=
  if !((sub.status == .active || sub.status == .pending_renewal) && !sub.autoRenew) then
    (.notFound, sub, [])
  else if (match sub.endDate with
      | some d => jsDateLe d now
      | none => false) then
    (.expired, sub, [])
  else
    let sub' := { sub with
      autoRenew := true
      status := .active
      renewalAttempts := 0
      paymentFailure := false
      updatedAt := now
      nextBillingDate := match sub.nextBillingDate, sub.endDate with
        | none, some e => some e
        | nb, _ => nb }
    (.reactivated, sub', [.reactivated])

/-! ## Recurring-payment lookup (lines 894-900) -/

/-- The filter of the recurring-payment `findOne`:
`{ $or: [ { payhereRecurringToken: subscription_id }, { userEmail: email?.toLowerCase().trim() } ], autoRenew: true }`.
`emailNorm` is the already-normalised email (`none` when the notification has
no email, in which case the branch matches nothing because `userEmail` is a
required field). -/
def matchesRecurring (subscriptionId : Option String) (emailNorm : Option String)
    (s : FoodSubscription) : Bool :=
  (s.payhereRecurringToken == subscriptionId ||
    (match emailNorm with
      | some e => s.userEmail == e
      | none => false)) && s.autoRenew

/-- `findOne(filter).sort({ createdAt: -1 })`: scan the collection keeping the
matching document with the latest `createdAt` (the first such document on
ties). -/
def pickLatest (p : FoodSubscription → Bool) :
    Option FoodSubscription → List FoodSubscription → Option FoodSubscription
  | acc, [] => acc
  | acc, s :: rest =>
    if p s then
      match acc with
      | none => pickLatest p (some s) rest
      | some t =>
        if jsDateLt t.createdAt s.createdAt then pickLatest p (some s) rest
        else pickLatest p (some t) rest
    else pickLatest p acc rest

/-- The recurring-payment subscription lookup of `handleRecurringFoodPayment`
(lines 894-900). -/
def findRecurringSub (subscriptionId : Option String) (email : Option String)
    (subs : List FoodSubscription) : Option FoodSubscription :=
  pickLatest (matchesRecurring subscriptionId (email.map fun e => jsTrim (jsToLower e)))
    none subs

/-- Replace the subscription document with the given `_id` (`subscription.save()`
after a `findOne`). -/
def replaceSubById (i : Nat) (new : FoodSubscription) :
    List FoodSubscription → List FoodSubscription
  | [] => []
  | s :: rest => if s.id == i then new :: rest else s :: replaceSubById i new rest

/-- Replace the order document with the given `_id` (`order.save()`). -/
def replaceOrderById (i : Nat) (new : CartOrder) : List CartOrder → List CartOrder
  | [] => []
  | o :: rest => if o.id == i then new :: rest else o :: replaceOrderById i new rest

/-! ## Notification handlers at store level -/

/-- `handleCartPaymentNotification` (lines 713-764): look the order up by
`payhereOrderId`; absent order is a no-op; on `status_code === '2'` mark the
payment `completed` and the order `confirmed` and record the gateway payment
id; otherwise mark `failed`/`cancelled`. -/
def handleCartPaymentNotification (now : JsDate) (n : Notification)
    (orders : List CartOrder) : List CartOrder :=
  match orders.find? (fun o => some o.payhereOrderId == n.order_id) with
  | none => orders
  | some order =>
    if n.status_code == some "2" then
      replaceOrderById order.id { order with
        paymentStatus := .completed
        orderStatus := .confirmed
        payherePaymentId := n.payment_id
        updatedAt := now } orders
    else
      replaceOrderById order.id { order with
        paymentStatus := .failed
        orderStatus := .cancelled
        updatedAt := now } orders

/-- `handleRecurringFoodPayment` (lines 881-992): look the subscription up
with `findRecurringSub`; absent subscription is a no-op; then apply the
success or failure transition and append a `renewed` or `failed` log entry. -/
def handleRecurringFoodPayment (now : JsDate) (n : Notification)
    (store : Store) : Store :=
  match findRecurringSub n.subscription_id n.email store.subs with
  | none => store
  | some sub =>
    if n.status_code == some "2" then
      let sub' := recurringSuccessTransition now (n.payhere_amount.getD 0)
        n.payment_id n.next_occurrence_date sub
      { store with
        subs := replaceSubById sub.id sub' store.subs
        logs := store.logs ++ [⟨sub.id, .renewed⟩] }
    else
      let sub' := recurringFailureTransition now (n.payhere_amount.getD 0)
        (n.status_code.getD "") sub
      { store with
        subs := replaceSubById sub.id sub' store.subs
        logs := store.logs ++ [⟨sub.id, .failed⟩] }

/-- `handleInitialFoodPaymentWithRecurring` (lines 767-878): look the
subscription up by `payhereOrderId`.  An existing subscription is updated
(token attached, auto-renew enabled) only when the notification is recurring
and carries a token, with no log entry; otherwise it is left unchanged.  When
no subscription exists, a fresh one is created and a `created` log entry
appended. -/
def handleInitialFoodPayment (now : JsDate) (n : Notification)
    (store : Store) : Store :=
  let isRecurring := n.custom_2 == some "food_monthly_recurring"
  match store.subs.find? (fun s => some s.payhereOrderId == n.order_id) with
  | some sub =>
    if isRecurring && jsTruthy n.recurring_token then
      { store with
        subs := replaceSubById sub.id
          (initialUpdateTransition now n.payment_id (n.recurring_token.getD "")
            n.next_occurrence_date sub) store.subs }
    else store
  | none =>
    let sub := initialCreateSubscription now (store.subs.length + 1)
      (n.order_id.getD "") n.payment_id (n.payhere_amount.getD 0) n.email
      n.custom_2 n.recurring_token n.next_occurrence_date
    { store with
      subs := store.subs ++ [sub]
      logs := store.logs ++ [⟨sub.id, .created⟩] }

/-- `handleFailedFoodPayment` (lines 995-1041): look the subscription up by
`payhereOrderId`; absent subscription is a no-op; otherwise apply the failed
payment transition and append a `failed` log entry. -/
def handleFailedFoodPayment (now : JsDate) (n : Notification)
    (store : Store) : Store :=
  match store.subs.find? (fun s => some s.payhereOrderId == n.order_id) with
  | none => store
  | some sub =>
    let sub' := failedPaymentTransition now (n.status_code.getD "")
      (n.status_message.getD "") sub
    { store with
      subs := replaceSubById sub.id sub' store.subs
      logs := store.logs ++ [⟨sub.id, .failed⟩] }

/-- Response of the `/api/payhere-notify` endpoint. -/
inductive NotifyResponse where
  | badRequest (msg : String)
  | ok
deriving DecidableEq, Repr

/-- `/api/payhere-notify` (lines 1044-1125).  Required-field validation
(line 1068) checks `merchant_id, order_id, payhere_amount, payhere_currency,
status_code, md5sig` — NOT `payment_id` — then the merchant id is compared
(trimmed) and the hash verified; any of these failures returns 400 with the
store untouched.  Otherwise the notification is routed by status code and
payment-type markers, and acknowledged with 200. -/
def payhereNotify (now : JsDate) (cfg : PayHereConfig) (store : Store)
    (n : Notification) : NotifyResponse × Store :=
  if jsFalsyStr n.merchant_id || jsFalsyStr n.order_id || n.payhere_amount.isNone ||
      jsFalsyStr n.payhere_currency || jsFalsyStr n.status_code || jsFalsyStr n.md5sig then
    (.badRequest "Missing required fields", store)
  else if jsTrim (n.merchant_id.getD "") != jsTrim cfg.merchantId then
    (.badRequest "Merchant ID mismatch", store)
  else if !(verifyPayHereHash cfg.md5 (n.merchant_id.getD "") (n.order_id.getD "")
      (n.payhere_amount.getD 0) (n.payhere_currency.getD "") (n.status_code.getD "")
      (n.md5sig.getD "") cfg.merchantSecret) then
    (.badRequest "Invalid hash", store)
  else
    let orderId := n.order_id.getD ""
    if n.status_code == some "2" then
      if n.custom_1 == some "cart_order" || jsStartsWith orderId "CART_" then
        (.ok, { store with orders := handleCartPaymentNotification now n store.orders })
      else if n.custom_2 == some "food_monthly_recurring" || jsStartsWith orderId "FOOD_" then
        if n.event_type == some "SUBSCRIPTION_PAYMENT" && jsTruthy n.recurring_token then
          (.ok, handleRecurringFoodPayment now n store)
        else
          (.ok, handleInitialFoodPayment now n store)
      else
        (.ok, { store with orders := handleCartPaymentNotification now n store.orders })
    else
      if n.custom_2 == some "food_monthly_recurring" || jsStartsWith orderId "FOOD_" then
        (.ok, handleFailedFoodPayment now n store)
      else
        (.ok, { store with orders := handleCartPaymentNotification now n store.orders })

/-! ## Operation sequences on a single subscription (for the invariant) -/

/-- The state-changing operations the source defines on one subscription,
with the parameters each draws from its notification or request.  The
guards under which each fires (the `findOne` filters) are part of
`applySubOp`. -/
inductive SubOp where
  /-- Success branch of `handleRecurringFoodPayment`. -/
  | recurringSuccess (now : JsDate) (amountCents : Nat) (paymentId : Option String)
      (nextOccurrenceDate : Option JsDate)
  /-- Failure branch of `handleRecurringFoodPayment`. -/
  | recurringFailure (now : JsDate) (amountCents : Nat) (statusCode : String)
  /-- `handleFailedFoodPayment`. -/
  | failedPayment (now : JsDate) (statusCode statusMessage : String)
  /-- Update branch of `handleInitialFoodPaymentWithRecurring` on an existing
  subscription (recurring notification carrying a token). -/
  | initialUpdate (now : JsDate) (paymentId : Option String) (recurringToken : String)
      (nextOccurrenceDate : Option JsDate)
  /-- `/api/cancel-food-subscription-renewal`. -/
  | cancelRenewal (now : JsDate) (reason : Option String)
  /-- `/api/reactivate-food-subscription-renewal`. -/
  | reactivate (now : JsDate)
deriving DecidableEq, Repr

/-- Whether the operation is the initial-payment update on an existing
subscription. -/
def SubOp.isInitialUpdate : SubOp → Bool
  | .initialUpdate _ _ _ _ => true
  | _ => false

/-- Apply one operation to a subscription, including the lookup guard under
which the source reaches that subscription (an unmet guard leaves the
document untouched): the recurring handler's `findOne` requires
`autoRenew: true`; the cancel endpoint's requires status `active` and
`autoRenew: true`; the reactivate endpoint's requires status in
`{active, pending_renewal}` and `autoRenew: false` plus a not-yet-passed
`endDate`. -/
def applySubOp (sub : FoodSubscription) : SubOp → FoodSubscription
  | .recurringSuccess now amt pid noc =>
    if sub.autoRenew then recurringSuccessTransition now amt pid noc sub else sub
  | .recurringFailure now amt sc =>
    if sub.autoRenew then recurringFailureTransition now amt sc sub else sub
  | .failedPayment now sc sm => failedPaymentTransition now sc sm sub
  | .initialUpdate now pid tok noc => initialUpdateTransition now pid tok noc sub
  | .cancelRenewal now reason => (cancelAutoRenew now reason sub).2.1
  | .reactivate now => (reactivateAutoRenew now sub).2.1

/-- The invariant claimed by the spec: while the status is `active` or
`pending_renewal`, the attempt counter is strictly below the threshold
(together with positivity of the threshold, which every creation path
establishes with the schema default 3). -/
def subInv (s : FoodSubscription) : Bool :=
  (!(s.status == .active || s.status == .pending_renewal) ||
    s.renewalAttempts < s.maxRenewalAttempts) &&
  0 < s.maxRenewalAttempts

/-- Iterated failed recurring-payment transitions. -/
def iterFailures (now : JsDate) (amt : Nat) (sc : String) :
    Nat → FoodSubscription → FoodSubscription
  | 0, s => s
  | k + 1, s => iterFailures now amt sc k (recurringFailureTransition now amt sc s)

/-- Number of `failed` entries in a renewal history. -/
def countFailed (h : List RenewalHistoryEntry) : Nat :=
  (h.filter (fun e => e.status == .failed)).length

/-- A neutral subscription used to build concrete instances. -/
def sampleSub : FoodSubscription :=
  { id := 0
    userEmail := ""
    status := .active
    amount := 250000
    payhereOrderId := ""
    payherePaymentId := none
    payhereRecurringToken := none
    autoRenew := true
    renewalAttempts := 0
    maxRenewalAttempts := 3
    paymentFailure := false
    lastPaymentFailureDate := none
    autoRenewalCancelledDate := none
    autoRenewalCancelledReason := none
    startDate := ⟨2025, 0, 1⟩
    endDate := some ⟨2025, 1, 1⟩
    nextBillingDate := none
    renewalHistory := []
    createdAt := ⟨2025, 0, 1⟩
    updatedAt := ⟨2025, 0, 1⟩ }

end FoodPayment

namespace FoodPayment

/-! ## Helper lemmas -/

theorem jsDateLt_irrefl (d : JsDate) : jsDateLt d d = false := by
  simp [jsDateLt]

theorem jsDateLt_asymm_chain {a b c : JsDate} (h₁ : jsDateLt a b = false)
    (h₂ : jsDateLt b c = false) : jsDateLt a c = false := by
  simp only [jsDateLt, Bool.or_eq_false_iff, Bool.and_eq_false_iff,
    decide_eq_false_iff_not, beq_eq_false_iff_ne, beq_iff_eq,
    Bool.or_eq_false_iff] at h₁ h₂ ⊢
  omega

theorem countFailed_append_failed (h : List RenewalHistoryEntry)
    (e : RenewalHistoryEntry) (he : e.status = .failed) :
    countFailed (h ++ [e]) = countFailed h + 1 := by
  simp [countFailed, List.filter_append, he]

theorem replaceOrderById_length (i : Nat) (o : CartOrder) (l : List CartOrder) :
    (replaceOrderById i o l).length = l.length := by
  induction l with
  | nil => rfl
  | cons x rest ih =>
    simp only [replaceOrderById]
    split <;> simp [ih]

theorem countFailed_failure_step (now : JsDate) (amt : Nat) (sc : String)
    (s : FoodSubscription) :
    countFailed (recurringFailureTransition now amt sc s).renewalHistory =
      countFailed s.renewalHistory + 1 := by
  simp [recurringFailureTransition, countFailed, List.filter_append]

theorem iterFailures_fixed (now : JsDate) (amt : Nat) (sc : String) (k : Nat) :
    ∀ s : FoodSubscription,
      (iterFailures now amt sc k s).maxRenewalAttempts = s.maxRenewalAttempts ∧
      (iterFailures now amt sc k s).renewalAttempts = s.renewalAttempts + k ∧
      (iterFailures now amt sc k s).renewalHistory.length = s.renewalHistory.length + k ∧
      countFailed (iterFailures now amt sc k s).renewalHistory =
        countFailed s.renewalHistory + k := by
  induction k with
  | zero => intro s; simp [iterFailures]
  | succ k ih =>
    intro s
    have h := ih (recurringFailureTransition now amt sc s)
    simp only [iterFailures]
    refine ⟨?_, ?_, ?_, ?_⟩
    · rw [h.1]; rfl
    · rw [h.2.1]; simp [recurringFailureTransition]; omega
    · rw [h.2.2.1]; simp [recurringFailureTransition]; omega
    · rw [h.2.2.2, countFailed_failure_step]
      omega

theorem iterFailures_final_status (now : JsDate) (amt : Nat) (sc : String) (k : Nat) :
    ∀ s : FoodSubscription,
      (iterFailures now amt sc (k + 1) s).status =
        (if s.renewalAttempts + (k + 1) ≥ s.maxRenewalAttempts then SubStatus.cancelled
         else SubStatus.pending_renewal) ∧
      (iterFailures now amt sc (k + 1) s).autoRenew =
        (if s.renewalAttempts + (k + 1) ≥ s.maxRenewalAttempts then false
         else s.autoRenew) := by
  induction k with
  | zero =>
    intro s
    exact ⟨rfl, rfl⟩
  | succ k ih =>
    intro s
    have h := ih (recurringFailureTransition now amt sc s)
    have hstep : iterFailures now amt sc (k + 1 + 1) s =
        iterFailures now amt sc (k + 1) (recurringFailureTransition now amt sc s) := rfl
    rw [hstep, h.1, h.2]
    have hatt : (recurringFailureTransition now amt sc s).renewalAttempts =
        s.renewalAttempts + 1 := rfl
    have hmax : (recurringFailureTransition now amt sc s).maxRenewalAttempts =
        s.maxRenewalAttempts := rfl
    have hauto : (recurringFailureTransition now amt sc s).autoRenew =
        (if s.renewalAttempts + 1 ≥ s.maxRenewalAttempts then false else s.autoRenew) := rfl
    rw [hatt, hmax, hauto]
    constructor
    · by_cases hc : s.renewalAttempts + 1 + (k + 1) ≥ s.maxRenewalAttempts
      · rw [if_pos hc, if_pos (by omega)]
      · rw [if_neg hc, if_neg (by omega)]
    · by_cases hc : s.renewalAttempts + 1 + (k + 1) ≥ s.maxRenewalAttempts
      · rw [if_pos hc, if_pos (by omega)]
      · rw [if_neg hc, if_neg (by omega), if_neg (by omega)]

theorem jsDateLt_skip {a b c : JsDate} (h₁ : jsDateLt a b = true)
    (h₂ : jsDateLt c b = false) : jsDateLt c a = false := by
  simp only [jsDateLt, Bool.or_eq_false_iff, Bool.and_eq_false_iff,
    decide_eq_false_iff_not, beq_eq_false_iff_ne, beq_iff_eq, Bool.or_eq_true,
    Bool.and_eq_true, decide_eq_true_eq, Bool.or_eq_false_iff] at h₁ h₂ ⊢
  omega

theorem pickLatest_spec (p : FoodSubscription → Bool) :
    ∀ (subs : List FoodSubscription) (acc : Option FoodSubscription)
      (r : FoodSubscription), pickLatest p acc subs = some r →
      (acc = some r ∨ (p r = true ∧ r ∈ subs)) ∧
      (∀ t ∈ subs, p t = true → jsDateLt r.createdAt t.createdAt = false) ∧
      (∀ a, acc = some a → jsDateLt r.createdAt a.createdAt = false) := by
  intro subs
  induction subs with
  | nil =>
    intro acc r h
    simp only [pickLatest] at h
    refine ⟨Or.inl h, ?_, ?_⟩
    · intro t ht; exact absurd ht (List.not_mem_nil t)
    · intro a ha
      rw [ha] at h
      cases Option.some.inj h
      exact jsDateLt_irrefl _
  | cons s rest ih =>
    intro acc r h
    simp only [pickLatest] at h
    by_cases hp : p s = true
    · rw [if_pos hp] at h
      cases acc with
      | none =>
        obtain ⟨h1, h2, h3⟩ := ih (some s) r h
        have hrs : jsDateLt r.createdAt s.createdAt = false := h3 s rfl
        refine ⟨?_, ?_, ?_⟩
        · rcases h1 with h1 | ⟨hpr, hmem⟩
          · cases Option.some.inj h1
            exact Or.inr ⟨hp, List.mem_cons_self _ _⟩
          · exact Or.inr ⟨hpr, List.mem_cons_of_mem _ hmem⟩
        · intro t ht hpt
          rcases List.mem_cons.mp ht with rfl | ht
          · exact hrs
          · exact h2 t ht hpt
        · intro a ha; cases ha
      | some t0 =>
        change (if jsDateLt t0.createdAt s.createdAt = true then
          pickLatest p (some s) rest else pickLatest p (some t0) rest) = some r at h
        by_cases hlt : jsDateLt t0.createdAt s.createdAt = true
        · rw [if_pos hlt] at h
          obtain ⟨h1, h2, h3⟩ := ih (some s) r h
          have hrs : jsDateLt r.createdAt s.createdAt = false := h3 s rfl
          refine ⟨?_, ?_, ?_⟩
          · rcases h1 with h1 | ⟨hpr, hmem⟩
            · cases Option.some.inj h1
              exact Or.inr ⟨hp, List.mem_cons_self _ _⟩
            · exact Or.inr ⟨hpr, List.mem_cons_of_mem _ hmem⟩
          · intro t ht hpt
            rcases List.mem_cons.mp ht with rfl | ht
            · exact hrs
            · exact h2 t ht hpt
          · intro a ha
            cases Option.some.inj ha
            exact jsDateLt_skip hlt hrs
        · rw [if_neg hlt] at h
          obtain ⟨h1, h2, h3⟩ := ih (some t0) r h
          have hrt0 : jsDateLt r.createdAt t0.createdAt = false := h3 t0 rfl
          have ht0s : jsDateLt t0.createdAt s.createdAt = false :=
            Bool.eq_false_iff.mpr hlt
          refine ⟨?_, ?_, ?_⟩
          · rcases h1 with h1 | ⟨hpr, hmem⟩
            · exact Or.inl h1
            · exact Or.inr ⟨hpr, List.mem_cons_of_mem _ hmem⟩
          · intro t ht hpt
            rcases List.mem_cons.mp ht with rfl | ht
            · exact jsDateLt_asymm_chain hrt0 ht0s
            · exact h2 t ht hpt
          · intro a ha
            cases Option.some.inj ha
            exact hrt0
    · rw [if_neg hp] at h
      obtain ⟨h1, h2, h3⟩ := ih acc r h
      refine ⟨?_, ?_, h3⟩
      · rcases h1 with h1 | ⟨hpr, hmem⟩
        · exact Or.inl h1
        · exact Or.inr ⟨hpr, List.mem_cons_of_mem _ hmem⟩
      · intro t ht hpt
        rcases List.mem_cons.mp ht with rfl | ht
        · exact absurd hpt hp
        · exact h2 t ht hpt

/-! ## C2: recurring-payment lookup tie-break -/

/-- Token-matching subscription, created earlier. -/
def c2tokenSub : FoodSubscription :=
  { sampleSub with
    id := 1
    userEmail := "a@x.com"
    payhereRecurringToken := some "TOK"
    createdAt := ⟨2025, 0, 1⟩ }

/-- Email-matching subscription with a different token, created later. -/
def c2emailSub : FoodSubscription :=
  { sampleSub with
    id := 2
    userEmail := "e@x.com"
    payhereRecurringToken := some "OTHER"
    createdAt := ⟨2025, 0, 5⟩ }

/-- C2 counterexample: the store holds a subscription whose recurring token
exactly matches the notification's token, and a distinct, more recently
created auto-renew-enabled subscription matching only the notification's
email; the lookup (lines 894-900) selects the email-matching one — the
token match is NOT preferred. -/
theorem c2_lookup_counterexample :
    findRecurringSub (some "TOK") (some "e@x.com") [c2tokenSub, c2emailSub] =
      some c2emailSub ∧
    c2emailSub.payhereRecurringToken ≠ some "TOK" ∧
    c2tokenSub.payhereRecurringToken = some "TOK" ∧
    c2tokenSub.autoRenew = true ∧ c2emailSub.autoRenew = true ∧
    c2tokenSub ≠ c2emailSub ∧
    jsDateLt c2tokenSub.createdAt c2emailSub.createdAt = true := by
  decide

/-- C2 (amended): the recurring-payment lookup selects, among ALL auto-renew
subscriptions matching the token or the (normalised) email alike — with no
preference of token matches over email matches — one whose creation time is
not exceeded by any other matching subscription. -/
theorem c2_lookup_amended (sid em : Option String) (subs : List FoodSubscription)
    (s : FoodSubscription) (h : findRecurringSub sid em subs = some s) :
    matchesRecurring sid (em.map fun e => jsTrim (jsToLower e)) s = true ∧
    s ∈ subs ∧
    ∀ t ∈ subs, matchesRecurring sid (em.map fun e => jsTrim (jsToLower e)) t = true →
      jsDateLt s.createdAt t.createdAt = false := by
  obtain ⟨h1, h2, _⟩ := pickLatest_spec _ subs none s h
  rcases h1 with h1 | ⟨hps, hmem⟩
  · cases h1
  · exact ⟨hps, hmem, h2⟩

/-- C2 witness: the amended selection property at the concrete store. -/
theorem c2_lookup_amended_witness :
    matchesRecurring (some "TOK")
        ((some "e@x.com").map fun e => jsTrim (jsToLower e)) c2emailSub = true ∧
    c2emailSub ∈ [c2tokenSub, c2emailSub] ∧
    ∀ t ∈ [c2tokenSub, c2emailSub],
      matchesRecurring (some "TOK")
        ((some "e@x.com").map fun e => jsTrim (jsToLower e)) t = true →
      jsDateLt c2emailSub.createdAt t.createdAt = false :=
  c2_lookup_amended (some "TOK") (some "e@x.com") [c2tokenSub, c2emailSub]
    c2emailSub (by decide)

/-! ## C3: required-field validation of the notification endpoint -/

/-- Concrete PayHere configuration instantiated at the identity digest. -/
def c3cfg : PayHereConfig := ⟨idDigest, "M123", "sec"⟩

/-- Store holding one pending cart order. -/
def c3store : Store :=
  ⟨[⟨1, "CART_1", "CART_1", .pending, .pending, none, ⟨2025, 0, 1⟩⟩], [], []⟩

/-- A notification missing only `payment_id`; every checked field is present,
the merchant id matches, and the signature verifies under the identity
digest (`jsToUpper ("M123" ++ "CART_1" ++ "2500.00" ++ "LKR" ++ "2" ++ "SEC")`). -/
def c3notif : Notification :=
  { merchant_id := some "M123"
    order_id := some "CART_1"
    payment_id := none
    payhere_amount := some 250000
    payhere_currency := some "LKR"
    status_code := some "2"
    md5sig := some "M123CART_12500.00LKR2SEC"
    status_message := none
    custom_1 := some "cart_order"
    custom_2 := none
    email := none
    recurring_token := none
    subscription_id := none
    event_type := none
    next_occurrence_date := none }

/-- A notification with every field absent. -/
def c3emptyNotif : Notification :=
  { merchant_id := none, order_id := none, payment_id := none,
    payhere_amount := none, payhere_currency := none, status_code := none,
    md5sig := none, status_message := none, custom_1 := none, custom_2 := none,
    email := none, recurring_token := none, subscription_id := none,
    event_type := none, next_occurrence_date := none }

/-- C3 counterexample: a notification missing `payment_id` (but otherwise
complete and authentic) is NOT rejected — the endpoint acknowledges with 200
and mutates the matching cart order, because the required-field check
(line 1068) does not include `payment_id`. -/
theorem c3_required_fields_counterexample :
    c3notif.payment_id = none ∧
    (payhereNotify ⟨2025, 0, 2⟩ c3cfg c3store c3notif).1 = .ok ∧
    (payhereNotify ⟨2025, 0, 2⟩ c3cfg c3store c3notif).2 ≠ c3store := by
  decide

/-- C3 (amended): a notification in which any of `merchant_id, order_id,
payhere_amount, payhere_currency, status_code, md5sig` is absent is rejected
with 400 "Missing required fields" and no state is mutated; `payment_id` is
not among the checked fields. -/
theorem c3_required_fields_amended (now : JsDate) (cfg : PayHereConfig)
    (store : Store) (n : Notification)
    (h : n.merchant_id = none ∨ n.order_id = none ∨ n.payhere_amount = none ∨
      n.payhere_currency = none ∨ n.status_code = none ∨ n.md5sig = none) :
    payhereNotify now cfg store n = (.badRequest "Missing required fields", store) := by
  unfold payhereNotify
  rcases h with h | h | h | h | h | h <;> simp [jsFalsyStr, jsTruthy, h]

/-- C3 witness: the amended rejection at a concrete notification with all
fields absent. -/
theorem c3_required_fields_amended_witness :
    payhereNotify ⟨2025, 0, 2⟩ c3cfg c3store c3emptyNotif =
      (.badRequest "Missing required fields", c3store) :=
  c3_required_fields_amended ⟨2025, 0, 2⟩ c3cfg c3store c3emptyNotif (Or.inl rfl)

/-! ## C4: cancelAutoRenew on an already-disabled subscription -/

/-- An active subscription whose auto-renew flag is already false. -/
def c4sub : FoodSubscription :=
  { sampleSub with id := 3, userEmail := "c4@x.com", autoRenew := false }

/-- C4 counterexample: on a subscription with `autoRenew` already false the
endpoint returns the "not found" result (`success: false`, lines 1391-1397),
NOT the "already disabled" result — the `findOne` filter requires
`autoRenew: true`, making the already-disabled branch (lines 1399-1407)
unreachable.  No log entry is written and the subscription is unchanged. -/
theorem c4_cancel_counterexample :
    c4sub.autoRenew = false ∧
    (cancelAutoRenew ⟨2025, 0, 2⟩ none c4sub).1 = .notFound ∧
    (cancelAutoRenew ⟨2025, 0, 2⟩ none c4sub).1 ≠ .alreadyDisabled ∧
    (cancelAutoRenew ⟨2025, 0, 2⟩ none c4sub).2.1 = c4sub ∧
    (cancelAutoRenew ⟨2025, 0, 2⟩ none c4sub).2.2 = [] := by
  decide

/-- C4 (amended): for every subscription whose autoRenew flag is already
false, invoking cancelAutoRenew returns the non-mutating "not found" result
(the "already disabled" branch being unreachable), writes no new log entry,
and leaves the subscription unchanged. -/
theorem c4_cancel_already_disabled_amended (now : JsDate) (reason : Option String)
    (sub : FoodSubscription) (h : sub.autoRenew = false) :
    cancelAutoRenew now reason sub = (.notFound, sub, []) := by
  simp [cancelAutoRenew, h]

/-- C4 witness: the amended behaviour at the concrete subscription. -/
theorem c4_cancel_already_disabled_amended_witness :
    c4sub.autoRenew = false ∧
    cancelAutoRenew ⟨2025, 0, 3⟩ (some "r") c4sub = (.notFound, c4sub, []) :=
  ⟨rfl, c4_cancel_already_disabled_amended ⟨2025, 0, 3⟩ (some "r") c4sub rfl⟩

/-! ## C1: layout of the signing and verification digests -/

/-- C1 counterexample: at a concrete digest function and concrete inputs the
signing digest computed by the code differs from the claimed construction
that places the hashed secret first — the code appends the hashed secret as
the LAST component (line 280). -/
theorem c1_hash_layout_counterexample :
    claimedSigningDigest idDigest "A" "B" 100 "LKR" "s" ≠
      generatePayHereHash idDigest "A" "B" 100 "LKR" "s" := by
  decide

/-- C1 (amended): for every digest function and all inputs, the signing
digest equals `hash(merchantId || orderId || amount_2dp || currency ||
hash(secret))` — the hashed secret is the LAST component — and the
verification digest is the same construction with the status code inserted
before the hashed secret, compared against the uppercased supplied
signature. -/
theorem c1_hash_layout_amended (md5 : String → String)
    (merchantId orderId : String) (amountCents : Nat)
    (currency statusCode md5sig secret : String) :
    generatePayHereHash md5 merchantId orderId amountCents currency secret =
      amendedSigningDigest md5 merchantId orderId amountCents currency secret ∧
    verifyPayHereHash md5 merchantId orderId amountCents currency statusCode
        md5sig secret =
      (amendedVerifyDigest md5 merchantId orderId amountCents currency statusCode
        secret == jsToUpper md5sig) := by
  exact ⟨rfl, rfl⟩

/-! ## C10: equivalence of the two hash generators -/

/-- C10: on inputs whose string forms are already trimmed and whose currency
is already upper-case, the one-time generator (`crypto`, lines 277-282) and
the recurring generator (`crypto-js`, lines 285-302) compute the same
digest, for every digest function. -/
theorem c10_generators_equivalent (md5 : String → String)
    (merchantId orderId currency secret : String) (amountCents : Nat)
    (hm : jsTrim merchantId = merchantId) (ho : jsTrim orderId = orderId)
    (hcu : jsToUpper currency = currency) (hct : jsTrim currency = currency)
    (hs : jsTrim secret = secret) :
    generatePayHereHash md5 merchantId orderId amountCents currency secret =
      generateRecurringPayHereHash md5 merchantId orderId amountCents currency secret := by
  simp only [generatePayHereHash, generateRecurringPayHereHash, hm, ho, hcu, hct, hs]

/-- C10 witness: the equivalence at concrete inputs. -/
theorem c10_generators_equivalent_witness :
    generatePayHereHash idDigest "M123" "FOOD_1" 250000 "LKR" "sec" =
      generateRecurringPayHereHash idDigest "M123" "FOOD_1" 250000 "LKR" "sec" :=
  c10_generators_equivalent idDigest "M123" "FOOD_1" "LKR" "sec" 250000
    (by decide) (by decide) (by decide) (by decide) (by decide)

/-! ## C5: failed recurring-payment transitions and attempt exhaustion -/

/-- C5: each failed recurring-payment transition increments `renewalAttempts`;
when the incremented count reaches `maxRenewalAttempts` the status becomes
`cancelled` and `autoRenew` is cleared, otherwise the status becomes
`pending_renewal` with `autoRenew` unchanged; one `failed` history entry is
appended per failure; and `maxRenewalAttempts` consecutive failures from zero
attempts yield `cancelled`, `autoRenew = false`, and `maxRenewalAttempts`
appended `failed` entries.  (Positivity of `maxRenewalAttempts` holds of
every subscription the code creates: the schema default is 3 and no code path
changes it.) -/
theorem c5_recurring_failure_exhaustion (now : JsDate) (amt : Nat) (sc : String)
    (sub : FoodSubscription) :
    (recurringFailureTransition now amt sc sub).renewalAttempts =
      sub.renewalAttempts + 1 ∧
    (sub.renewalAttempts + 1 ≥ sub.maxRenewalAttempts →
      (recurringFailureTransition now amt sc sub).status = .cancelled ∧
      (recurringFailureTransition now amt sc sub).autoRenew = false) ∧
    (sub.renewalAttempts + 1 < sub.maxRenewalAttempts →
      (recurringFailureTransition now amt sc sub).status = .pending_renewal ∧
      (recurringFailureTransition now amt sc sub).autoRenew = sub.autoRenew) ∧
    countFailed (recurringFailureTransition now amt sc sub).renewalHistory =
      countFailed sub.renewalHistory + 1 ∧
    (recurringFailureTransition now amt sc sub).renewalHistory.length =
      sub.renewalHistory.length + 1 ∧
    (sub.renewalAttempts = 0 → 1 ≤ sub.maxRenewalAttempts →
      (iterFailures now amt sc sub.maxRenewalAttempts sub).status = .cancelled ∧
      (iterFailures now amt sc sub.maxRenewalAttempts sub).autoRenew = false ∧
      (iterFailures now amt sc sub.maxRenewalAttempts sub).renewalHistory.length =
        sub.renewalHistory.length + sub.maxRenewalAttempts ∧
      countFailed (iterFailures now amt sc sub.maxRenewalAttempts sub).renewalHistory =
        countFailed sub.renewalHistory + sub.maxRenewalAttempts) := by
  have hstat : (recurringFailureTransition now amt sc sub).status =
      (if sub.renewalAttempts + 1 ≥ sub.maxRenewalAttempts then SubStatus.cancelled
       else SubStatus.pending_renewal) := rfl
  have hauto : (recurringFailureTransition now amt sc sub).autoRenew =
      (if sub.renewalAttempts + 1 ≥ sub.maxRenewalAttempts then false
       else sub.autoRenew) := rfl
  refine ⟨rfl, ?_, ?_, countFailed_failure_step now amt sc sub,
    by simp [recurringFailureTransition], ?_⟩
  · intro h
    rw [hstat, hauto, if_pos h, if_pos h]
    exact ⟨rfl, rfl⟩
  · intro h
    rw [hstat, hauto, if_neg (by omega), if_neg (by omega)]
    exact ⟨rfl, rfl⟩
  · intro h0 hmax
    obtain ⟨k, hk⟩ : ∃ k, sub.maxRenewalAttempts = k + 1 :=
      ⟨sub.maxRenewalAttempts - 1, by omega⟩
    have hfin := iterFailures_final_status now amt sc k sub
    have hfix := iterFailures_fixed now amt sc sub.maxRenewalAttempts sub
    refine ⟨?_, ?_, hfix.2.2.1, hfix.2.2.2⟩
    · rw [hk, hfin.1, if_pos (by omega)]
    · rw [hk, hfin.2, if_pos (by omega)]

/-- A subscription two failures deep (for the exhaustion boundary). -/
def c5sub2 : FoodSubscription := { sampleSub with renewalAttempts := 2 }

/-- C5 witness: the failure transition and the three-failure exhaustion at
concrete subscriptions. -/
theorem c5_recurring_failure_exhaustion_witness :
    ((recurringFailureTransition ⟨2025, 1, 1⟩ 250000 "3" c5sub2).status =
        SubStatus.cancelled ∧
      (recurringFailureTransition ⟨2025, 1, 1⟩ 250000 "3" c5sub2).autoRenew = false) ∧
    ((recurringFailureTransition ⟨2025, 1, 1⟩ 250000 "3" sampleSub).status =
        SubStatus.pending_renewal ∧
      (recurringFailureTransition ⟨2025, 1, 1⟩ 250000 "3" sampleSub).autoRenew =
        sampleSub.autoRenew) ∧
    ((iterFailures ⟨2025, 1, 1⟩ 250000 "3" sampleSub.maxRenewalAttempts
        sampleSub).status = SubStatus.cancelled ∧
      (iterFailures ⟨2025, 1, 1⟩ 250000 "3" sampleSub.maxRenewalAttempts
        sampleSub).autoRenew = false ∧
      (iterFailures ⟨2025, 1, 1⟩ 250000 "3" sampleSub.maxRenewalAttempts
        sampleSub).renewalHistory.length =
        sampleSub.renewalHistory.length + sampleSub.maxRenewalAttempts ∧
      countFailed (iterFailures ⟨2025, 1, 1⟩ 250000 "3" sampleSub.maxRenewalAttempts
        sampleSub).renewalHistory =
        countFailed sampleSub.renewalHistory + sampleSub.maxRenewalAttempts) :=
  ⟨(c5_recurring_failure_exhaustion ⟨2025, 1, 1⟩ 250000 "3" c5sub2).2.1 (by decide),
   (c5_recurring_failure_exhaustion ⟨2025, 1, 1⟩ 250000 "3" sampleSub).2.2.1 (by decide),
   (c5_recurring_failure_exhaustion ⟨2025, 1, 1⟩ 250000 "3" sampleSub).2.2.2.2.2
     rfl (by decide)⟩

/-! ## C6: successful recurring-payment transition -/

/-- C6: for every subscription with an `endDate`, the successful recurring
transition sets the new `endDate` to exactly one month after the CURRENT
`endDate`, sets `nextBillingDate` to the provided occurrence date or else the
new end date, resets `renewalAttempts` to 0, clears the failure flag, sets
status `active` — and the resulting `endDate` and `nextBillingDate` are
independent of the processing time `now`. -/
theorem c6_recurring_success_end_date (now now2 : JsDate) (amt : Nat)
    (pid : Option String) (noc : Option JsDate) (sub : FoodSubscription)
    (d : JsDate) (h : sub.endDate = some d) :
    (recurringSuccessTransition now amt pid noc sub).endDate =
      some (addOneMonth d) ∧
    (recurringSuccessTransition now amt pid noc sub).nextBillingDate =
      some (noc.getD (addOneMonth d)) ∧
    (recurringSuccessTransition now amt pid noc sub).renewalAttempts = 0 ∧
    (recurringSuccessTransition now amt pid noc sub).paymentFailure = false ∧
    (recurringSuccessTransition now amt pid noc sub).status = .active ∧
    (recurringSuccessTransition now2 amt pid noc sub).endDate =
      (recurringSuccessTransition now amt pid noc sub).endDate ∧
    (recurringSuccessTransition now2 amt pid noc sub).nextBillingDate =
      (recurringSuccessTransition now amt pid noc sub).nextBillingDate := by
  refine ⟨?_, ?_, rfl, rfl, rfl, rfl, rfl⟩
  · show sub.endDate.map addOneMonth = some (addOneMonth d)
    rw [h]; rfl
  · cases noc with
    | none =>
      show sub.endDate.map addOneMonth = some ((none : Option JsDate).getD (addOneMonth d))
      rw [h]; rfl
    | some nd => rfl

/-- C6 witness: the success transition at a concrete subscription whose
current `endDate` is 2025-02-01 (month index 1): the new end date is
2025-03-01, regardless of the two processing times supplied. -/
theorem c6_recurring_success_end_date_witness :
    (recurringSuccessTransition ⟨2025, 5, 20⟩ 250000 (some "PAY9") none
        sampleSub).endDate = some (addOneMonth ⟨2025, 1, 1⟩) ∧
    (recurringSuccessTransition ⟨2025, 5, 20⟩ 250000 (some "PAY9") none
        sampleSub).nextBillingDate =
      some ((none : Option JsDate).getD (addOneMonth ⟨2025, 1, 1⟩)) ∧
    (recurringSuccessTransition ⟨2025, 5, 20⟩ 250000 (some "PAY9") none
        sampleSub).renewalAttempts = 0 ∧
    (recurringSuccessTransition ⟨2025, 5, 20⟩ 250000 (some "PAY9") none
        sampleSub).paymentFailure = false ∧
    (recurringSuccessTransition ⟨2025, 5, 20⟩ 250000 (some "PAY9") none
        sampleSub).status = .active ∧
    (recurringSuccessTransition ⟨2025, 11, 30⟩ 250000 (some "PAY9") none
        sampleSub).endDate =
      (recurringSuccessTransition ⟨2025, 5, 20⟩ 250000 (some "PAY9") none
        sampleSub).endDate ∧
    (recurringSuccessTransition ⟨2025, 11, 30⟩ 250000 (some "PAY9") none
        sampleSub).nextBillingDate =
      (recurringSuccessTransition ⟨2025, 5, 20⟩ 250000 (some "PAY9") none
        sampleSub).nextBillingDate :=
  c6_recurring_success_end_date ⟨2025, 5, 20⟩ ⟨2025, 11, 30⟩ 250000 (some "PAY9")
    none sampleSub ⟨2025, 1, 1⟩ rfl

/-! ## C7: reactivation of an expired subscription -/

/-- C7: for every subscription whose `endDate` lies strictly in the past at
the time of the call, `reactivateAutoRenew` does not succeed, mutates
nothing, and appends no log entry (it answers either "not eligible" or
"expired"). -/
theorem c7_reactivate_expired_no_mutation (now : JsDate) (sub : FoodSubscription)
    (d : JsDate) (he : sub.endDate = some d) (hp : jsDateLt d now = true) :
    (reactivateAutoRenew now sub).1 ≠ .reactivated ∧
    (reactivateAutoRenew now sub).2.1 = sub ∧
    (reactivateAutoRenew now sub).2.2 = [] := by
  have hle := jsDateLe_of_lt hp
  cases hg : (sub.status == SubStatus.active || sub.status == SubStatus.pending_renewal) &&
      !sub.autoRenew
  · simp [reactivateAutoRenew, hg]
  · simp [reactivateAutoRenew, hg, he, hle]

/-- An eligible (active, auto-renew disabled) subscription whose end date has
passed. -/
def c7sub : FoodSubscription :=
  { sampleSub with id := 7, userEmail := "c7@x.com", autoRenew := false }

/-- C7 witness: the non-mutation at a concrete expired subscription. -/
theorem c7_reactivate_expired_no_mutation_witness :
    (reactivateAutoRenew ⟨2025, 2, 1⟩ c7sub).1 ≠ .reactivated ∧
    (reactivateAutoRenew ⟨2025, 2, 1⟩ c7sub).2.1 = c7sub ∧
    (reactivateAutoRenew ⟨2025, 2, 1⟩ c7sub).2.2 = [] :=
  c7_reactivate_expired_no_mutation ⟨2025, 2, 1⟩ c7sub ⟨2025, 1, 1⟩ rfl (by decide)

/-! ## C8: the renewal-attempt invariant -/

theorem subInv_of (s : FoodSubscription)
    (h1 : s.status = .active ∨ s.status = .pending_renewal →
      s.renewalAttempts < s.maxRenewalAttempts)
    (h2 : 0 < s.maxRenewalAttempts) : subInv s = true := by
  simp only [subInv, Bool.and_eq_true, Bool.or_eq_true, Bool.not_eq_true',
    Bool.or_eq_false_iff, beq_eq_false_iff_ne, decide_eq_true_eq]
  refine ⟨?_, h2⟩
  by_cases hs : s.status = SubStatus.active ∨ s.status = SubStatus.pending_renewal
  · exact Or.inr (h1 hs)
  · left
    constructor
    · intro hc; exact hs (Or.inl hc)
    · intro hc; exact hs (Or.inr hc)

theorem subInv_max_pos {s : FoodSubscription} (hs : subInv s = true) :
    0 < s.maxRenewalAttempts := by
  simp only [subInv, Bool.and_eq_true, decide_eq_true_eq] at hs
  exact hs.2

theorem subInv_att_lt {s : FoodSubscription} (hs : subInv s = true)
    (h : s.status = .active ∨ s.status = .pending_renewal) :
    s.renewalAttempts < s.maxRenewalAttempts := by
  simp only [subInv, Bool.and_eq_true, Bool.or_eq_true, Bool.not_eq_true',
    Bool.or_eq_false_iff, beq_eq_false_iff_ne, decide_eq_true_eq] at hs
  rcases hs.1 with ⟨ha, hp⟩ | hlt
  · rcases h with h | h
    · exact absurd h ha
    · exact absurd h hp
  · exact hlt

/-- The cancel endpoint never changes status, attempt counter or threshold. -/
theorem cancelAutoRenew_fixed (now : JsDate) (reason : Option String)
    (s : FoodSubscription) :
    (cancelAutoRenew now reason s).2.1.status = s.status ∧
    (cancelAutoRenew now reason s).2.1.renewalAttempts = s.renewalAttempts ∧
    (cancelAutoRenew now reason s).2.1.maxRenewalAttempts = s.maxRenewalAttempts := by
  unfold cancelAutoRenew
  split
  · split
    · exact ⟨rfl, rfl, rfl⟩
    · exact ⟨rfl, rfl, rfl⟩
  · exact ⟨rfl, rfl, rfl⟩

/-- Every operation except the initial-payment update preserves the
invariant. -/
theorem applySubOp_preserves (op : SubOp) (s : FoodSubscription)
    (hop : op.isInitialUpdate = false) (hs : subInv s = true) :
    subInv (applySubOp s op) = true := by
  have hmax := subInv_max_pos hs
  cases op with
  | recurringSuccess now amt pid noc =>
    show subInv (if s.autoRenew then recurringSuccessTransition now amt pid noc s
      else s) = true
    by_cases har : s.autoRenew = true
    · rw [if_pos har]
      exact subInv_of _ (fun _ => hmax) hmax
    · rw [if_neg har]; exact hs
  | recurringFailure now amt sc =>
    show subInv (if s.autoRenew then recurringFailureTransition now amt sc s
      else s) = true
    by_cases har : s.autoRenew = true
    · rw [if_pos har]
      refine subInv_of _ ?_ hmax
      intro hst
      have hstat : (recurringFailureTransition now amt sc s).status =
          (if s.renewalAttempts + 1 ≥ s.maxRenewalAttempts then SubStatus.cancelled
           else SubStatus.pending_renewal) := rfl
      by_cases hc : s.renewalAttempts + 1 ≥ s.maxRenewalAttempts
      · rw [hstat, if_pos hc] at hst
        rcases hst with hst | hst <;> cases hst
      · show s.renewalAttempts + 1 < s.maxRenewalAttempts
        omega
    · rw [if_neg har]; exact hs
  | failedPayment now sc sm =>
    show subInv (failedPaymentTransition now sc sm s) = true
    refine subInv_of _ ?_ hmax
    intro hst
    have hstat : (failedPaymentTransition now sc sm s).status =
        (if s.renewalAttempts + 1 ≥ s.maxRenewalAttempts then SubStatus.cancelled
         else SubStatus.payment_failed) := rfl
    by_cases hc : s.renewalAttempts + 1 ≥ s.maxRenewalAttempts
    · rw [hstat, if_pos hc] at hst
      rcases hst with hst | hst <;> cases hst
    · rw [hstat, if_neg hc] at hst
      rcases hst with hst | hst <;> cases hst
  | initialUpdate now pid tok noc =>
    simp [SubOp.isInitialUpdate] at hop
  | cancelRenewal now reason =>
    show subInv (cancelAutoRenew now reason s).2.1 = true
    obtain ⟨h1, h2, h3⟩ := cancelAutoRenew_fixed now reason s
    refine subInv_of _ ?_ ?_
    · rw [h1, h2, h3]
      exact subInv_att_lt hs
    · rw [h3]; exact hmax
  | reactivate now =>
    show subInv (reactivateAutoRenew now s).2.1 = true
    unfold reactivateAutoRenew
    split
    · exact hs
    · split
      · exact hs
      · exact subInv_of _ (fun _ => hmax) hmax

theorem foldl_subInv (ops : List SubOp) :
    ∀ s : FoodSubscription, subInv s = true →
      (∀ op ∈ ops, op.isInitialUpdate = false) →
      subInv (ops.foldl applySubOp s) = true := by
  induction ops with
  | nil => intro s hs _; exact hs
  | cons op rest ih =>
    intro s hs hops
    exact ih _ (applySubOp_preserves op s (hops op (List.mem_cons_self _ _)) hs)
      (fun o ho => hops o (List.mem_cons_of_mem _ ho))

/-- Subscription created by the record endpoint, with three standalone
payment failures driving it to `cancelled`, followed by an initial-payment
update that re-activates it without resetting the attempt counter. -/
def c8start : FoodSubscription :=
  createSubscriptionRecord ⟨2025, 0, 10⟩ 1 "u@x.com" 250000
    "FOOD_RECURRING_1_1" (some "TOK") true

/-- The operation sequence exhibiting the invariant violation. -/
def c8ops : List SubOp :=
  [.failedPayment ⟨2025, 1, 10⟩ "3" "err",
   .failedPayment ⟨2025, 1, 11⟩ "3" "err",
   .failedPayment ⟨2025, 1, 12⟩ "3" "err",
   .initialUpdate ⟨2025, 1, 13⟩ (some "PAY2") "TOK2" none]

/-- C8 counterexample: a subscription reachable by creation, three failed
standalone payments and one initial-payment update ends with status `active`
while `renewalAttempts = maxRenewalAttempts` — the claimed invariant is
violated, because the initial-payment update (lines 797-808) sets status
`active` and `autoRenew` without resetting the attempt counter. -/
theorem c8_invariant_counterexample :
    (c8ops.foldl applySubOp c8start).status = SubStatus.active ∧
    (c8ops.foldl applySubOp c8start).renewalAttempts =
      (c8ops.foldl applySubOp c8start).maxRenewalAttempts ∧
    subInv (c8ops.foldl applySubOp c8start) = false := by
  decide

/-- C8 (amended): for every subscription created by the record endpoint and
every sequence of the defined operations NOT containing the initial-payment
update on an existing subscription, the invariant holds: while the status is
`active` or `pending_renewal` the attempt counter stays strictly below the
threshold (and the threshold stays positive). -/
theorem c8_invariant_amended (now : JsDate) (newId : Nat) (userEmail : String)
    (amt : Nat) (orderId : String) (tok : Option String) (enableAutoRenew : Bool)
    (ops : List SubOp) (hops : ∀ op ∈ ops, op.isInitialUpdate = false) :
    subInv (ops.foldl applySubOp
      (createSubscriptionRecord now newId userEmail amt orderId tok
        enableAutoRenew)) = true :=
  foldl_subInv ops _ rfl hops

/-- C8 witness: the amended invariant along a concrete initial-update-free
operation sequence. -/
theorem c8_invariant_amended_witness :
    subInv ([SubOp.recurringFailure ⟨2025, 1, 10⟩ 250000 "3",
      SubOp.recurringSuccess ⟨2025, 2, 10⟩ 250000 (some "P") none,
      SubOp.cancelRenewal ⟨2025, 3, 1⟩ none,
      SubOp.reactivate ⟨2025, 3, 2⟩].foldl applySubOp
        (createSubscriptionRecord ⟨2025, 0, 10⟩ 1 "u@x.com" 250000 "FOOD_1"
          (some "TOK") true)) = true :=
  c8_invariant_amended ⟨2025, 0, 10⟩ 1 "u@x.com" 250000 "FOOD_1" (some "TOK") true
    _ (by decide)

/-! ## C9: cart notification handling -/

/-- C9: for every cart notification, (i) when no stored order carries the
notification's gateway order id the handler is a no-op, (ii) on success the
matched order's payment status becomes `completed`, its fulfillment status
`confirmed`, and the gateway payment id is recorded, (iii) on failure the
matched order becomes `failed`/`cancelled`, and (iv) the handler never
creates or removes an order. -/
theorem c9_cart_notification (now : JsDate) (n : Notification)
    (orders : List CartOrder) :
    ((∀ o ∈ orders, some o.payhereOrderId ≠ n.order_id) →
      handleCartPaymentNotification now n orders = orders) ∧
    (∀ o, orders.find? (fun o => some o.payhereOrderId == n.order_id) = some o →
      n.status_code = some "2" →
      handleCartPaymentNotification now n orders =
        replaceOrderById o.id { o with
          paymentStatus := .completed
          orderStatus := .confirmed
          payherePaymentId := n.payment_id
          updatedAt := now } orders) ∧
    (∀ o, orders.find? (fun o => some o.payhereOrderId == n.order_id) = some o →
      n.status_code ≠ some "2" →
      handleCartPaymentNotification now n orders =
        replaceOrderById o.id { o with
          paymentStatus := .failed
          orderStatus := .cancelled
          updatedAt := now } orders) ∧
    (handleCartPaymentNotification now n orders).length = orders.length := by
  refine ⟨?_, ?_, ?_, ?_⟩
  · intro h
    have hf : orders.find? (fun o => some o.payhereOrderId == n.order_id) = none := by
      rw [List.find?_eq_none]
      intro o ho
      simp [h o ho]
    simp [handleCartPaymentNotification, hf]
  · intro o hf h2
    have hb : (n.status_code == some "2") = true := by simp [h2]
    simp [handleCartPaymentNotification, hf, hb]
  · intro o hf h2
    have hb : (n.status_code == some "2") = false := by
      rw [beq_eq_false_iff_ne]; exact h2
    simp [handleCartPaymentNotification, hf, hb]
  · cases hf : orders.find? (fun o => some o.payhereOrderId == n.order_id) with
    | none => simp [handleCartPaymentNotification, hf]
    | some o =>
      simp only [handleCartPaymentNotification, hf]
      split
      · rw [replaceOrderById_length]
      · rw [replaceOrderById_length]

/-- A pending cart order awaiting its notification. -/
def c9order : CartOrder := ⟨1, "CART_9", "CART_9", .pending, .pending, none, ⟨2025, 0, 1⟩⟩

/-- A successful cart notification for `c9order`. -/
def c9notif : Notification :=
  { c3emptyNotif with
    merchant_id := some "M123"
    order_id := some "CART_9"
    payment_id := some "PAY9"
    payhere_amount := some 250000
    payhere_currency := some "LKR"
    status_code := some "2"
    md5sig := some "SIG"
    custom_1 := some "cart_order" }

/-- The same notification reporting a failure. -/
def c9failNotif : Notification := { c9notif with status_code := some "0" }

/-- C9 witness: the no-op, success and failure cases, each at a concrete
store. -/
theorem c9_cart_notification_witness :
    handleCartPaymentNotification ⟨2025, 0, 2⟩ c9notif [] = [] ∧
    handleCartPaymentNotification ⟨2025, 0, 2⟩ c9notif [c9order] =
      replaceOrderById c9order.id { c9order with
        paymentStatus := .completed
        orderStatus := .confirmed
        payherePaymentId := c9notif.payment_id
        updatedAt := ⟨2025, 0, 2⟩ } [c9order] ∧
    handleCartPaymentNotification ⟨2025, 0, 2⟩ c9failNotif [c9order] =
      replaceOrderById c9order.id { c9order with
        paymentStatus := .failed
        orderStatus := .cancelled
        updatedAt := ⟨2025, 0, 2⟩ } [c9order] :=
  ⟨(c9_cart_notification ⟨2025, 0, 2⟩ c9notif []).1
      (fun o ho => absurd ho (List.not_mem_nil o)),
   (c9_cart_notification ⟨2025, 0, 2⟩ c9notif [c9order]).2.1 c9order (by decide) rfl,
   (c9_cart_notification ⟨2025, 0, 2⟩ c9failNotif [c9order]).2.2.1 c9order
     (by decide) (by decide)⟩

end FoodPayment
